import Mathlib

/-!
Shallow embedding of the core of `ddtrace/tracer/tracer.go` (package `tracer`
of dd-trace-go): span creation and parent linkage (`StartSpan`), root-only
sampling (`sample`), the bounded non-blocking ingestion and error queues
(`pushTrace`, `pushError`), the worker's payload merge (`pushPayload`),
the flush paths (`flushTraces`, `flushErrors`, `flush`) and shutdown (`Stop`).

External collaborators that are not part of the excerpt (the payload's
encoder, the transport, `span.SetTag`, `newSpanContext`, the error-record
constructors and `logErrors`) are modelled from the spec, each marked with a
doc comment starting `Modelled from the spec:`.  Go channels become lists
with an explicit capacity check (`traceBuffer`, `errorBuffer`) or a pending
flag for the capacity-1 request channels; the non-deterministic outcomes of
external calls (`transport.send`, `payload.push`) become explicit outcome
arguments; `random.Uint64()` and the current time become explicit arguments
of `startSpan`.  Concurrency (locks, the worker goroutine's select loop) is
modelled by treating each handler as an atomic state transition on the
tracer state.
-/

set_option autoImplicit false
set_option maxRecDepth 10000

namespace DDTrace

/-! ## Constants (tracer.go) -/

/-- `traceBufferSize = 200`: buffer size of the trace channel. -/
def traceBufferSize : Nat := 200

/-- `errorBufferSize = 200`: buffer size of the error channel. -/
def errorBufferSize : Nat := 200

/-- `payloadSizeLimit = 5 * 1024 * 1024`: maximum allowed payload size before
a flush to the transport is triggered. -/
def payloadSizeLimit : Nat := 5 * 1024 * 1024

/-- `sampleRateMetricKey = "_sample_rate"`: metric key holding the applied
sample rate (tracer.go). -/
def sampleRateMetricKey : String := "_sample_rate"

/-- Modelled from the spec: the sampling-priority metric key used to
propagate the sampling priority from parent to child (declared in span
code that is outside the excerpt; only its use appears in `StartSpan`). -/
def samplingPriorityKey : String := "_sampling_priority_v1"

/-- Modelled from the spec: the process-identifier tag key `ext.Pid` used to
stamp root spans with the process id (the `ext` package is outside the
excerpt). -/
def extPid : String := "system.pid"

/-! ## Maps

Tag and metric maps are modelled as functions `String → Option α`; setting a
key overwrites any previous value, which is exactly Go's map assignment and
gives the spec's "later values win on key collision". -/

/-- The empty map. -/
def memptyMap {α : Type} : String → Option α := fun _ => none

/-- Map update: `m[k] = v`. -/
def mset {α : Type} (m : String → Option α) (k : String) (v : α) :
    String → Option α :=
  fun x => if x = k then some v else m x

/-! ## Span and span context -/

/-- Span context: carries the trace id, span id and the sampling decision.
The Go struct also carries a `span` back-reference pointer (nil for remote
contexts); the model keeps only its nil-ness as `hasSpan`, and the actual
parent span is passed alongside the context where `StartSpan` needs it. -/
structure spanContext where
  traceID : Nat
  spanID : Nat
  sampled : Bool
  hasSpan : Bool

/-- The zero value used before `StartSpan` assigns the real context (the Go
pointer field starts out nil and is assigned on every path). -/
def nilContext : spanContext :=
  { traceID := 0, spanID := 0, sampled := false, hasSpan := false }

/-- A span, with the fields `StartSpan` and `sample` touch.  `Meta` holds the
string tags, `Metrics` the numeric metrics (Go `float64` values modelled as
rationals).  `hasParent` models the nil-ness of the `parent` pointer. -/
structure span where
  Name : String
  Service : String
  Resource : String
  Meta : String → Option String
  Metrics : String → Option ℚ
  SpanID : Nat
  TraceID : Nat
  ParentID : Nat
  Start : Int
  finished : Bool
  context : spanContext
  hasParent : Bool

/-- Modelled from the spec: `span.SetTag` (span code outside the excerpt)
sets a string tag in the span's tag map via the single set-operation, so
later values win on key collision. -/
def setTag (s : span) (k v : String) : span :=
  { s with Meta := mset s.Meta k v }

/-- Modelled from the spec: `newSpanContext(span, parent)` (span-context code
outside the excerpt) constructs the context of a freshly created span: it
carries the span's trace and span ids, a local span back-reference, and
inherits the sampling decision from the parent context when one is given. -/
def newSpanContext (s : span) (parent : Option spanContext) : spanContext :=
  { traceID := s.TraceID
    spanID := s.SpanID
    sampled := match parent with
      | some p => p.sampled
      | none => true
    hasSpan := true }

/-! ## Sampler and configuration -/

/-- The sampler capability interface: `Sample(span) -> bool`, plus the
optional `RateSampler` capability; `Rate = some r` models a sampler whose
dynamic type assertion `sampler.(RateSampler)` succeeds with `Rate() = r`. -/
structure Sampler where
  Sample : span → Bool
  Rate : Option ℚ

/-- The slice of the tracer configuration that the embedded operations
read: service name, global tags, the process id (`os.Getpid()`), and the
sampler. -/
structure Config where
  serviceName : String
  globalTags : List (String × String)
  pid : Nat
  sampler : Sampler

/-- `tracer.sample` (tracer.go): run the configured sampler on the span,
record the decision on the span's context, and, when the sampler is a rate
sampler with rate below 1 and the span was sampled and is not yet finished,
record the applied rate as a numeric metric. -/
def sample (t : Config) (s : span) : span :=
  let sampled := t.sampler.Sample s
  let s1 := { s with context := { s.context with sampled := sampled } }
  if sampled then
    match t.sampler.Rate with
    | some r =>
      if r < 1 then
        if s1.finished then s1
        else { s1 with Metrics := mset s1.Metrics sampleRateMetricKey r }
      else s1
    | none => s1
  else s1

/-! ## StartSpan -/

/-- The `opts.Parent` value handed to `StartSpan`: either a context of this
tracer's concrete type (`ours`, carrying the context and its span
back-reference: `some` for an in-process parent, `none` for a remote one),
or a `SpanContext` of some other implementation, whose type assertion
`opts.Parent.(*spanContext)` fails. -/
inductive ParentArg where
  | ours (ctx : spanContext) (spanRef : Option span)
  | foreign

/-- `ddtrace.StartSpanConfig`, restricted to the fields `StartSpan` reads:
parent context, explicit start time (`none` models the zero `time.Time`),
and the option tags (string-valued in the model). -/
structure StartSpanConfig where
  Parent : Option ParentArg
  StartTime : Option Int
  Tags : List (String × String)

/-- Apply a list of tags to a span via `SetTag`, in order. -/
def applyTags (tags : List (String × String)) (s : span) : span :=
  tags.foldl (fun s kv => setTag s kv.1 kv.2) s

/-- Result of `startSpan`: the created span, plus whether the sampler was
invoked during creation (instrumentation for the root-only-sampling
property; the Go code has no such flag, the call either happens or not). -/
structure StartSpanResult where
  sp : span
  samplerInvoked : Bool

/-- Does the resolved parent context carry a local span reference?  Mirrors
`context != nil && context.span != nil` after the type assertion. -/
def hasLocalSpanRef : Option ParentArg → Bool
  | some (ParentArg.ours _ (some _)) => true
  | _ => false

/-- `tracer.StartSpan` (tracer.go): resolve the start time, resolve the
parent context via the type assertion, build the span with defaults
(`SpanID = TraceID = id`, `ParentID = 0`), then link to a remote or local
parent if one exists, sample when this is a process-level root, and apply
the option tags followed by the global tags.  `id` is the value of
`random.Uint64()` and `nowT` the current time, both passed explicitly. -/
def startSpan (t : Config) (operationName : String) (opts : StartSpanConfig)
    (id : Nat) (nowT : Int) : StartSpanResult :=
  let startTime : Int :=
    match opts.StartTime with
    | none => nowT
    | some ts => ts
  let context : Option (spanContext × Option span) :=
    match opts.Parent with
    | some (ParentArg.ours ctx spanRef) => some (ctx, spanRef)
    | _ => none
  let s0 : span :=
    { Name := operationName
      Service := t.serviceName
      Resource := operationName
      Meta := memptyMap
      Metrics := memptyMap
      SpanID := id
      TraceID := id
      ParentID := 0
      Start := startTime
      finished := false
      context := nilContext
      hasParent := false }
  let s1 : span :=
    match context with
    | some (ctx, none) =>
      { s0 with TraceID := ctx.traceID, ParentID := ctx.spanID }
    | some (_, some parent) =>
      let sa := { s0 with
        Service := parent.Service
        TraceID := parent.TraceID
        ParentID := parent.SpanID
        hasParent := true }
      let sb := { sa with context := newSpanContext sa (some parent.context) }
      match parent.Metrics samplingPriorityKey with
      | some v => { sb with Metrics := mset sb.Metrics samplingPriorityKey v }
      | none => sb
    | none => s0
  let rootCase : Bool :=
    match context with
    | none => true
    | some (_, none) => true
    | some (_, some _) => false
  let s2 : span :=
    if rootCase then
      let sa := { s1 with context := newSpanContext s1 none }
      let sb := setTag sa extPid (Nat.repr t.pid)
      sample t sb
    else s1
  let s3 := applyTags opts.Tags s2
  let s4 := applyTags t.globalTags s3
  { sp := s4, samplerInvoked := rootCase }

/-! ## Error records, payload, tracer state -/

/-- Modelled from the spec: an internal error record is a kind tag plus a
message and, where relevant, a count.  `traceBufferFull` is
`traceBufferError(len(trace))`, `transport` is `transportError(err, count)`,
`encoding` is `encodingError(err)` (all constructed in error code outside
the excerpt). -/
inductive TracerError where
  | traceBufferFull (droppedSpans : Nat)
  | transport (msg : String) (items : Nat)
  | encoding (msg : String)
  deriving DecidableEq, Repr

/-- Modelled from the spec: the Send Buffer (payload) accumulates pushed
trace sequences, tracking the cumulative encoded byte size and the item
(trace) count. -/
structure Payload where
  items : Nat
  bytes : Nat
  deriving DecidableEq, Repr

/-- `newPayload()`: the empty payload. -/
def newPayload : Payload := { items := 0, bytes := 0 }

/-- `payload.itemCount()`. -/
def Payload.itemCount (p : Payload) : Nat := p.items

/-- `payload.size()`. -/
def Payload.size (p : Payload) : Nat := p.bytes

/-- Modelled from the spec: `payload.reset()` clears the buffer. -/
def Payload.reset (_p : Payload) : Payload := { items := 0, bytes := 0 }

/-- Outcome of the external encoder inside `payload.push(trace)`: success
adds some number of encoded bytes, failure carries the error message. -/
inductive PushOutcome where
  | ok (encodedBytes : Nat)
  | err (msg : String)

/-- Modelled from the spec: `payload.push(trace)` merges one trace into the
buffer and can fail with an encoding error, in which case it must not alter
size or item count.  The encoder's outcome is an explicit argument; the
second component is the returned error. -/
def Payload.push (p : Payload) (o : PushOutcome) : Payload × Option String :=
  match o with
  | PushOutcome.ok n => ({ items := p.items + 1, bytes := p.bytes + n }, none)
  | PushOutcome.err m => (p, some m)

/-- The mutable state of a `tracer`: the payload, the two bounded buffers
(Go channels of capacity `traceBufferSize` / `errorBufferSize`, as lists),
the two capacity-1 request channels (as pending flags), and whether the
`stopped` channel has been closed. -/
structure TracerState where
  payload : Payload
  traceBuffer : List (List span)
  errorBuffer : List TracerError
  flushTracesReqPending : Bool
  flushErrorsReqPending : Bool
  stopped : Bool

/-! ## Queue operations (tracer.go) -/

/-- The non-blocking send on a capacity-1 request channel
(`select { case ch <- struct{}{}: default: }`): when a request is already
pending it is skipped, otherwise it becomes pending. -/
def tryRequest (pending : Bool) : Bool :=
  if pending then pending else true

/-- First statement of `tracer.pushError` (tracer.go): when the error buffer
is at least half full, request an error flush with a non-blocking send on
the capacity-1 `flushErrorsReq` channel. -/
def pushErrorAnticipate (t : TracerState) : TracerState :=
  if t.errorBuffer.length ≥ errorBufferSize / 2 then
    { t with flushErrorsReqPending := tryRequest t.flushErrorsReqPending }
  else t

/-- Second statement of `tracer.pushError` (tracer.go): try to enqueue the
record on the error buffer, silently discarding it when the buffer is
full. -/
def pushErrorEnqueue (t : TracerState) (e : TracerError) : TracerState :=
  if t.errorBuffer.length < errorBufferSize then
    { t with errorBuffer := t.errorBuffer ++ [e] }
  else t

/-- `tracer.pushError` (tracer.go): the two statements above in sequence.
Never blocks. -/
def pushError (t : TracerState) (e : TracerError) : TracerState :=
  pushErrorEnqueue (pushErrorAnticipate t) e

/-- `tracer.pushTrace` (tracer.go), without the test-only `syncPush`
rendezvous: a non-blocking send of the finished trace onto the trace
buffer; when the buffer is full the trace is dropped and a trace-buffer
overflow error carrying the span count is pushed instead. -/
def pushTrace (t : TracerState) (trace : List span) : TracerState :=
  if t.traceBuffer.length < traceBufferSize then
    { t with traceBuffer := t.traceBuffer ++ [trace] }
  else
    pushError t (TracerError.traceBufferFull trace.length)

/-- First statement of `tracer.pushPayload` (tracer.go), without the
test-only `syncPush` rendezvous: merge the trace into the payload via
`payload.push`, reporting an encoding error when the merge fails.  The
encoder's outcome is an explicit argument. -/
def pushPayloadMerge (t : TracerState) (o : PushOutcome) : TracerState :=
  match t.payload.push o with
  | (p1, some m) => pushError { t with payload := p1 } (TracerError.encoding m)
  | (p1, none) => { t with payload := p1 }

/-- Second statement of `tracer.pushPayload` (tracer.go): when the payload
size now exceeds the limit, request a trace flush with a non-blocking send
on the capacity-1 `flushTracesReq` channel. -/
def pushPayloadFlushCheck (t : TracerState) : TracerState :=
  if t.payload.size > payloadSizeLimit then
    { t with flushTracesReqPending := tryRequest t.flushTracesReqPending }
  else t

/-- `tracer.pushPayload` (tracer.go): the two statements above in
sequence. -/
def pushPayload (t : TracerState) (o : PushOutcome) : TracerState :=
  pushPayloadFlushCheck (pushPayloadMerge t o)

/-! ## Flush paths and shutdown (tracer.go) -/

/-- Outcome of the external `transport.send(payload)` call: `ok` for a nil
error, `err` for a transport failure. -/
inductive SendOutcome where
  | ok
  | err (msg : String)

/-- `tracer.flushTraces` (tracer.go): return immediately when the payload is
empty; otherwise send the payload to the transport — on failure push a
transport error carrying the current item count and leave the payload
untouched, on success reset the payload.  The Boolean result records
whether `transport.send` was invoked. -/
def flushTraces (t : TracerState) (o : SendOutcome) : TracerState × Bool :=
  if t.payload.itemCount = 0 then (t, false)
  else
    match o with
    | SendOutcome.err m =>
      (pushError t (TracerError.transport m t.payload.itemCount), true)
    | SendOutcome.ok =>
      ({ t with payload := t.payload.reset }, true)

/-- `tracer.flushErrors` (tracer.go); `logErrors` is modelled from the
spec: it drains the error queue and logs each record. -/
def flushErrors (t : TracerState) : TracerState :=
  { t with errorBuffer := [] }

/-- `tracer.flush` (tracer.go): flush traces, then errors. -/
def flush (t : TracerState) (o : SendOutcome) : TracerState :=
  flushErrors (flushTraces t o).1

/-- `tracer.Stop` (tracer.go) together with the worker's handling of the
exit request, taken as one atomic transition: when the `stopped` channel is
already closed, return immediately; otherwise send the exit request, upon
which the worker performs one final full flush, returns, and closes
`stopped`.  The Boolean result records whether an exit request was sent. -/
def Stop (t : TracerState) (o : SendOutcome) : TracerState × Bool :=
  if t.stopped then (t, false)
  else ({ flush t o with stopped := true }, true)

/-! ## Helper lemmas -/

theorem applyTags_cons (kv : String × String) (tags : List (String × String))
    (s : span) : applyTags (kv :: tags) s = applyTags tags (setTag s kv.1 kv.2) := rfl

theorem applyTags_Metrics (tags : List (String × String)) (s : span) :
    (applyTags tags s).Metrics = s.Metrics := by
  induction tags generalizing s with
  | nil => rfl
  | cons kv rest ih => rw [applyTags_cons, ih]; rfl

theorem applyTags_TraceID (tags : List (String × String)) (s : span) :
    (applyTags tags s).TraceID = s.TraceID := by
  induction tags generalizing s with
  | nil => rfl
  | cons kv rest ih => rw [applyTags_cons, ih]; rfl

theorem applyTags_ParentID (tags : List (String × String)) (s : span) :
    (applyTags tags s).ParentID = s.ParentID := by
  induction tags generalizing s with
  | nil => rfl
  | cons kv rest ih => rw [applyTags_cons, ih]; rfl

theorem applyTags_SpanID (tags : List (String × String)) (s : span) :
    (applyTags tags s).SpanID = s.SpanID := by
  induction tags generalizing s with
  | nil => rfl
  | cons kv rest ih => rw [applyTags_cons, ih]; rfl

theorem applyTags_Service (tags : List (String × String)) (s : span) :
    (applyTags tags s).Service = s.Service := by
  induction tags generalizing s with
  | nil => rfl
  | cons kv rest ih => rw [applyTags_cons, ih]; rfl

theorem applyTags_Meta_fresh (tags : List (String × String)) (s : span)
    (x : String) (h : ∀ kv ∈ tags, kv.1 ≠ x) :
    (applyTags tags s).Meta x = s.Meta x := by
  induction tags generalizing s with
  | nil => rfl
  | cons kv rest ih =>
    rw [applyTags_cons, ih _ (fun p hp => h p (List.mem_cons_of_mem _ hp))]
    show mset s.Meta kv.1 kv.2 x = s.Meta x
    unfold mset
    exact if_neg (fun hx => h kv (List.mem_cons_self _ _) hx.symm)

theorem sample_Meta (t : Config) (s : span) : (sample t s).Meta = s.Meta := by
  simp only [sample]
  split
  · split
    · split
      · split <;> rfl
      · rfl
    · rfl
  · rfl

theorem sample_TraceID (t : Config) (s : span) :
    (sample t s).TraceID = s.TraceID := by
  simp only [sample]
  split
  · split
    · split
      · split <;> rfl
      · rfl
    · rfl
  · rfl

theorem sample_ParentID (t : Config) (s : span) :
    (sample t s).ParentID = s.ParentID := by
  simp only [sample]
  split
  · split
    · split
      · split <;> rfl
      · rfl
    · rfl
  · rfl

theorem sample_SpanID (t : Config) (s : span) :
    (sample t s).SpanID = s.SpanID := by
  simp only [sample]
  split
  · split
    · split
      · split <;> rfl
      · rfl
    · rfl
  · rfl

theorem tryRequest_eq_true (b : Bool) : tryRequest b = true := by
  cases b <;> rfl

theorem pushErrorAnticipate_errorBuffer (t : TracerState) :
    (pushErrorAnticipate t).errorBuffer = t.errorBuffer := by
  unfold pushErrorAnticipate; split <;> rfl

theorem pushErrorAnticipate_traceBuffer (t : TracerState) :
    (pushErrorAnticipate t).traceBuffer = t.traceBuffer := by
  unfold pushErrorAnticipate; split <;> rfl

theorem pushErrorAnticipate_payload (t : TracerState) :
    (pushErrorAnticipate t).payload = t.payload := by
  unfold pushErrorAnticipate; split <;> rfl

theorem pushErrorAnticipate_flushTracesReqPending (t : TracerState) :
    (pushErrorAnticipate t).flushTracesReqPending = t.flushTracesReqPending := by
  unfold pushErrorAnticipate; split <;> rfl

theorem pushErrorEnqueue_traceBuffer (t : TracerState) (e : TracerError) :
    (pushErrorEnqueue t e).traceBuffer = t.traceBuffer := by
  unfold pushErrorEnqueue; split <;> rfl

theorem pushErrorEnqueue_payload (t : TracerState) (e : TracerError) :
    (pushErrorEnqueue t e).payload = t.payload := by
  unfold pushErrorEnqueue; split <;> rfl

theorem pushErrorEnqueue_flushTracesReqPending (t : TracerState) (e : TracerError) :
    (pushErrorEnqueue t e).flushTracesReqPending = t.flushTracesReqPending := by
  unfold pushErrorEnqueue; split <;> rfl

theorem pushErrorEnqueue_flushErrorsReqPending (t : TracerState) (e : TracerError) :
    (pushErrorEnqueue t e).flushErrorsReqPending = t.flushErrorsReqPending := by
  unfold pushErrorEnqueue; split <;> rfl

theorem pushError_traceBuffer (t : TracerState) (e : TracerError) :
    (pushError t e).traceBuffer = t.traceBuffer := by
  unfold pushError
  rw [pushErrorEnqueue_traceBuffer, pushErrorAnticipate_traceBuffer]

theorem pushError_payload (t : TracerState) (e : TracerError) :
    (pushError t e).payload = t.payload := by
  unfold pushError
  rw [pushErrorEnqueue_payload, pushErrorAnticipate_payload]

theorem pushError_flushTracesReqPending (t : TracerState) (e : TracerError) :
    (pushError t e).flushTracesReqPending = t.flushTracesReqPending := by
  unfold pushError
  rw [pushErrorEnqueue_flushTracesReqPending, pushErrorAnticipate_flushTracesReqPending]

theorem pushError_errorBuffer_notFull (t : TracerState) (e : TracerError)
    (h : t.errorBuffer.length < errorBufferSize) :
    (pushError t e).errorBuffer = t.errorBuffer ++ [e] := by
  unfold pushError pushErrorEnqueue
  rw [pushErrorAnticipate_errorBuffer, if_pos h]

theorem pushError_errorBuffer_full (t : TracerState) (e : TracerError)
    (h : ¬ t.errorBuffer.length < errorBufferSize) :
    (pushError t e).errorBuffer = t.errorBuffer := by
  unfold pushError pushErrorEnqueue
  rw [pushErrorAnticipate_errorBuffer, if_neg h]
  exact pushErrorAnticipate_errorBuffer t

/-! ## Claim theorems -/

/-- C2: a span started with a local in-process parent inherits the parent's
`TraceID`, gets `ParentID = parent.SpanID`, copies the parent's `Service`,
and copies the parent's sampling-priority metric into its own metrics when
the parent carries one. -/
theorem startSpan_localParent (t : Config) (name : String)
    (opts : StartSpanConfig) (id : Nat) (nowT : Int) (ctx : spanContext)
    (parent : span)
    (hp : opts.Parent = some (ParentArg.ours ctx (some parent))) :
    (startSpan t name opts id nowT).sp.TraceID = parent.TraceID ∧
    (startSpan t name opts id nowT).sp.ParentID = parent.SpanID ∧
    (startSpan t name opts id nowT).sp.Service = parent.Service ∧
    (∀ v : ℚ, parent.Metrics samplingPriorityKey = some v →
      (startSpan t name opts id nowT).sp.Metrics samplingPriorityKey = some v) := by
  unfold startSpan
  rw [hp]
  cases hm : parent.Metrics samplingPriorityKey with
  | none =>
    refine ⟨?_, ?_, ?_, ?_⟩
    · simp [applyTags_TraceID, hm]
    · simp [applyTags_ParentID, hm]
    · simp [applyTags_Service, hm]
    · intro v hv
      exact absurd hv (by simp)
  | some w =>
    refine ⟨?_, ?_, ?_, ?_⟩
    · simp [applyTags_TraceID, hm]
    · simp [applyTags_ParentID, hm]
    · simp [applyTags_Service, hm]
    · intro v hv
      cases hv
      simp [applyTags_Metrics, hm, mset]

/-- C3: a span started with a remote parent context (no local span
reference) inherits the context's trace id as `TraceID` and the context's
span id as `ParentID`. -/
theorem startSpan_remoteParent (t : Config) (name : String)
    (opts : StartSpanConfig) (id : Nat) (nowT : Int) (ctx : spanContext)
    (hp : opts.Parent = some (ParentArg.ours ctx none)) :
    (startSpan t name opts id nowT).sp.TraceID = ctx.traceID ∧
    (startSpan t name opts id nowT).sp.ParentID = ctx.spanID := by
  unfold startSpan
  rw [hp]
  constructor
  · simp [applyTags_TraceID, sample_TraceID, setTag]
  · simp [applyTags_ParentID, sample_ParentID, setTag]

/-- C4: the sampler is invoked during `startSpan` exactly when the resolved
parent context carries no local span reference — i.e. a span with no
parent, a foreign-typed parent, or a remote parent samples, and a span with
a local in-process parent never does. -/
theorem startSpan_samplerRootOnly (t : Config) (name : String)
    (opts : StartSpanConfig) (id : Nat) (nowT : Int) :
    (startSpan t name opts id nowT).samplerInvoked =
      !hasLocalSpanRef opts.Parent := by
  rcases hP : opts.Parent with _ | pa
  · simp [startSpan, hasLocalSpanRef, hP]
  · rcases pa with ⟨ctx, _ | sr⟩ | _ <;> simp [startSpan, hasLocalSpanRef, hP]

/-- C5: `pushTrace` is non-blocking — when the ingestion queue has free
capacity the trace is enqueued, and when it is full the trace is dropped
(the queue is unchanged) and a trace-buffer overflow error carrying the
number of spans of the dropped trace is reported via `pushError`, which
lands it in the error queue whenever that queue is not itself full. -/
theorem pushTrace_nonblocking (t : TracerState) (trace : List span) :
    (t.traceBuffer.length < traceBufferSize →
       pushTrace t trace = { t with traceBuffer := t.traceBuffer ++ [trace] }) ∧
    (t.traceBuffer.length ≥ traceBufferSize →
       (pushTrace t trace).traceBuffer = t.traceBuffer ∧
       pushTrace t trace = pushError t (TracerError.traceBufferFull trace.length) ∧
       (t.errorBuffer.length < errorBufferSize →
          (pushTrace t trace).errorBuffer
            = t.errorBuffer ++ [TracerError.traceBufferFull trace.length])) := by
  constructor
  · intro h
    unfold pushTrace
    rw [if_pos h]
  · intro h
    have hn : ¬ t.traceBuffer.length < traceBufferSize := not_lt.mpr h
    have he : pushTrace t trace
        = pushError t (TracerError.traceBufferFull trace.length) := by
      unfold pushTrace
      rw [if_neg hn]
    refine ⟨?_, he, ?_⟩
    · rw [he, pushError_traceBuffer]
    · intro hq
      rw [he, pushError_errorBuffer_notFull t _ hq]

/-- C6: `pushError` never blocks — when the error queue is at least half
full a flush-errors request becomes pending (a non-blocking send, skipped
when already pending), otherwise the pending flag is untouched; the record
is appended when the queue has room and silently discarded when the queue
is full. -/
theorem pushError_policy (t : TracerState) (e : TracerError) :
    (t.errorBuffer.length ≥ errorBufferSize / 2 →
       (pushError t e).flushErrorsReqPending = true) ∧
    (t.errorBuffer.length < errorBufferSize / 2 →
       (pushError t e).flushErrorsReqPending = t.flushErrorsReqPending) ∧
    (t.errorBuffer.length < errorBufferSize →
       (pushError t e).errorBuffer = t.errorBuffer ++ [e]) ∧
    (t.errorBuffer.length ≥ errorBufferSize →
       (pushError t e).errorBuffer = t.errorBuffer) := by
  refine ⟨?_, ?_, ?_, ?_⟩
  · intro h
    unfold pushError
    rw [pushErrorEnqueue_flushErrorsReqPending]
    unfold pushErrorAnticipate
    rw [if_pos h]
    exact tryRequest_eq_true t.flushErrorsReqPending
  · intro h
    unfold pushError
    rw [pushErrorEnqueue_flushErrorsReqPending]
    unfold pushErrorAnticipate
    rw [if_neg (not_le.mpr h)]
  · intro h
    exact pushError_errorBuffer_notFull t e h
  · intro h
    exact pushError_errorBuffer_full t e (not_lt.mpr h)

theorem pushPayloadMerge_flushTracesReqPending (t : TracerState) (o : PushOutcome) :
    (pushPayloadMerge t o).flushTracesReqPending = t.flushTracesReqPending := by
  cases o with
  | ok n => rfl
  | err m =>
    show (pushError { t with payload := t.payload }
        (TracerError.encoding m)).flushTracesReqPending = t.flushTracesReqPending
    rw [pushError_flushTracesReqPending]

theorem pushPayloadFlushCheck_payload (t : TracerState) :
    (pushPayloadFlushCheck t).payload = t.payload := by
  unfold pushPayloadFlushCheck; split <;> rfl

theorem pushPayloadFlushCheck_errorBuffer (t : TracerState) :
    (pushPayloadFlushCheck t).errorBuffer = t.errorBuffer := by
  unfold pushPayloadFlushCheck; split <;> rfl

/-- C8: `pushPayload` — a failed merge reports an encoding error (landing
in the error queue when it has room) and leaves the payload untouched; a
successful merge adds the trace's item and bytes; afterwards, whenever the
payload size exceeds the 5 MiB limit a flush-traces request becomes
pending (a non-blocking send, skipped when already pending), and otherwise
the pending flag is untouched. -/
theorem pushPayload_policy (t : TracerState) (m : String) (n : Nat) :
    payloadSizeLimit = 5 * 1024 * 1024 ∧
    (pushPayload t (PushOutcome.err m)).payload = t.payload ∧
    (t.errorBuffer.length < errorBufferSize →
       (pushPayload t (PushOutcome.err m)).errorBuffer
         = t.errorBuffer ++ [TracerError.encoding m]) ∧
    (pushPayload t (PushOutcome.ok n)).payload
      = { items := t.payload.items + 1, bytes := t.payload.bytes + n } ∧
    (∀ o : PushOutcome,
       ((pushPayloadMerge t o).payload.size > payloadSizeLimit →
          (pushPayload t o).flushTracesReqPending = true) ∧
       ((pushPayloadMerge t o).payload.size ≤ payloadSizeLimit →
          (pushPayload t o).flushTracesReqPending = t.flushTracesReqPending)) := by
  refine ⟨rfl, ?_, ?_, ?_, ?_⟩
  · show (pushPayloadFlushCheck (pushPayloadMerge t (PushOutcome.err m))).payload
      = t.payload
    rw [pushPayloadFlushCheck_payload]
    show (pushError { t with payload := t.payload }
        (TracerError.encoding m)).payload = t.payload
    rw [pushError_payload]
  · intro h
    show (pushPayloadFlushCheck (pushPayloadMerge t (PushOutcome.err m))).errorBuffer
      = t.errorBuffer ++ [TracerError.encoding m]
    rw [pushPayloadFlushCheck_errorBuffer]
    show (pushError { t with payload := t.payload }
        (TracerError.encoding m)).errorBuffer = t.errorBuffer ++ [TracerError.encoding m]
    exact pushError_errorBuffer_notFull _ _ h
  · show (pushPayloadFlushCheck (pushPayloadMerge t (PushOutcome.ok n))).payload
      = { items := t.payload.items + 1, bytes := t.payload.bytes + n }
    rw [pushPayloadFlushCheck_payload]
    rfl
  · intro o
    constructor
    · intro h
      show (pushPayloadFlushCheck (pushPayloadMerge t o)).flushTracesReqPending = true
      unfold pushPayloadFlushCheck
      rw [if_pos h]
      exact tryRequest_eq_true _
    · intro h
      show (pushPayloadFlushCheck (pushPayloadMerge t o)).flushTracesReqPending
        = t.flushTracesReqPending
      unfold pushPayloadFlushCheck
      rw [if_neg (not_lt.mpr h)]
      exact pushPayloadMerge_flushTracesReqPending t o

/-- An initial tracer state: empty payload, empty buffers, no pending
requests, not stopped (the state right after `newTracer`). -/
def initialState : TracerState :=
  { payload := newPayload
    traceBuffer := []
    errorBuffer := []
    flushTracesReqPending := false
    flushErrorsReqPending := false
    stopped := false }

/-- C1 counterexample: with an empty payload, `flushTraces` returns
immediately without calling `transport.send` at all (the sent flag is
false and the state is unchanged), contradicting the claim that the
flush-traces operation sends the payload to the transport for every state
of the payload. -/
theorem flushTraces_emptyPayload_noSend :
    (flushTraces initialState SendOutcome.ok).2 = false ∧
    (flushTraces initialState SendOutcome.ok).1 = initialState :=
  ⟨rfl, rfl⟩

/-- C1 (amended): whenever the payload is non-empty, `flushTraces` sends
it to the transport; on success the payload is reset so its item count is
0; on failure the payload is left unchanged and a transport error carrying
the current item count is reported via `pushError`, landing in the error
queue whenever that queue is not full.  (With an empty payload the
operation returns without contacting the transport.) -/
theorem flushTraces_policy (t : TracerState) (m : String)
    (h : t.payload.itemCount ≠ 0) :
    (flushTraces t SendOutcome.ok).2 = true ∧
    ((flushTraces t SendOutcome.ok).1).payload.itemCount = 0 ∧
    (flushTraces t (SendOutcome.err m)).2 = true ∧
    ((flushTraces t (SendOutcome.err m)).1).payload = t.payload ∧
    (flushTraces t (SendOutcome.err m)).1
      = pushError t (TracerError.transport m t.payload.itemCount) ∧
    (t.errorBuffer.length < errorBufferSize →
       ((flushTraces t (SendOutcome.err m)).1).errorBuffer
         = t.errorBuffer ++ [TracerError.transport m t.payload.itemCount]) := by
  have hok : flushTraces t SendOutcome.ok
      = ({ t with payload := t.payload.reset }, true) := by
    unfold flushTraces
    rw [if_neg h]
  have herr : flushTraces t (SendOutcome.err m)
      = (pushError t (TracerError.transport m t.payload.itemCount), true) := by
    unfold flushTraces
    rw [if_neg h]
  refine ⟨by rw [hok], by rw [hok]; rfl, by rw [herr], ?_, by rw [herr], ?_⟩
  · rw [herr]
    exact pushError_payload t _
  · intro hq
    rw [herr]
    exact pushError_errorBuffer_notFull t _ hq

/-- C7: when the configured sampler is a rate sampler with `Rate() = r`,
`sample` adds the applied-rate metric with value `r` exactly when the span
is sampled, `r < 1` and the span is not yet finished; when `r = 1`, or the
span is not sampled, or the span is already finished, the span's metrics
are left unchanged. -/
theorem sample_rateMetric (t : Config) (s : span) (r : ℚ)
    (hr : t.sampler.Rate = some r) :
    (t.sampler.Sample s = true → s.finished = false → r < 1 →
       (sample t s).Metrics sampleRateMetricKey = some r) ∧
    (t.sampler.Sample s = true → r = 1 →
       (sample t s).Metrics = s.Metrics) ∧
    (t.sampler.Sample s = false → (sample t s).Metrics = s.Metrics) ∧
    (t.sampler.Sample s = true → s.finished = true →
       (sample t s).Metrics = s.Metrics) := by
  refine ⟨?_, ?_, ?_, ?_⟩
  · intro hS hF hR
    simp [sample, hr, hS, hF, hR, mset]
  · intro hS hR1
    subst hR1
    simp [sample, hr, hS]
  · intro hS
    simp [sample, hS]
  · intro hS hF
    simp [sample, hr, hS, hF]

/-- C9: `Stop` is idempotent — from a running state the first call sends
the exit request (the worker performs one final full flush, terminates and
closes the `stopped` signal), and a second call observes the closed signal
and returns immediately with the state unchanged and no second exit
request. -/
theorem Stop_idempotent (t : TracerState) (o o2 : SendOutcome)
    (h : t.stopped = false) :
    (Stop t o).2 = true ∧
    (Stop t o).1 = { flush t o with stopped := true } ∧
    (Stop t o).1.stopped = true ∧
    Stop (Stop t o).1 o2 = ((Stop t o).1, false) := by
  have h1 : Stop t o = ({ flush t o with stopped := true }, true) := by
    unfold Stop
    rw [if_neg (by rw [h]; exact Bool.false_ne_true)]
  have h2 : (Stop t o).1.stopped = true := by rw [h1]
  refine ⟨by rw [h1], by rw [h1], h2, ?_⟩
  have hstop : ∀ u : TracerState, u.stopped = true → Stop u o2 = (u, false) := by
    intro u hu
    unfold Stop
    rw [if_pos hu]
  exact hstop _ h2

/-- C10: when `StartSpan` is given a parent option whose `SpanContext` is
not this tracer's concrete context type, the parent is ignored: the span
becomes a process root with `ParentID = 0` and `TraceID = SpanID = id`
(its own fresh identifier), it is stamped with the process-id tag (assuming
no start-option or global tag collides with that key), and the sampler is
invoked on it. -/
theorem startSpan_foreignParent (t : Config) (name : String)
    (opts : StartSpanConfig) (id : Nat) (nowT : Int)
    (hp : opts.Parent = some ParentArg.foreign)
    (h1 : ∀ kv ∈ opts.Tags, kv.1 ≠ extPid)
    (h2 : ∀ kv ∈ t.globalTags, kv.1 ≠ extPid) :
    (startSpan t name opts id nowT).sp.ParentID = 0 ∧
    (startSpan t name opts id nowT).sp.TraceID = id ∧
    (startSpan t name opts id nowT).sp.SpanID = id ∧
    (startSpan t name opts id nowT).sp.Meta extPid = some (Nat.repr t.pid) ∧
    (startSpan t name opts id nowT).samplerInvoked = true := by
  refine ⟨?_, ?_, ?_, ?_, ?_⟩
  · simp [startSpan, hp, applyTags_ParentID, sample_ParentID, setTag]
  · simp [startSpan, hp, applyTags_TraceID, sample_TraceID, setTag]
  · simp [startSpan, hp, applyTags_SpanID, sample_SpanID, setTag]
  · simp only [startSpan, hp]
    rw [applyTags_Meta_fresh _ _ _ h2, applyTags_Meta_fresh _ _ _ h1]
    rw [if_pos trivial, sample_Meta]
    simp [setTag, mset]
  · simp [startSpan, hp]

/-! ## Concrete fixtures for witnesses -/

/-- A rate sampler that keeps everything and reports rate 1/2. -/
def rateHalfSampler : Sampler := { Sample := fun _ => true, Rate := some (1/2) }

/-- A concrete configuration. -/
def cfg0 : Config :=
  { serviceName := "svc", globalTags := [], pid := 42, sampler := rateHalfSampler }

/-- A concrete local span context. -/
def ctx0 : spanContext :=
  { traceID := 7, spanID := 9, sampled := true, hasSpan := true }

/-- A concrete parent span carrying a sampling-priority metric. -/
def span0 : span :=
  { Name := "p"
    Service := "psvc"
    Resource := "p"
    Meta := memptyMap
    Metrics := mset memptyMap samplingPriorityKey 2
    SpanID := 9
    TraceID := 7
    ParentID := 0
    Start := 0
    finished := false
    context := ctx0
    hasParent := false }

/-- Start options naming a local in-process parent. -/
def optsLocal : StartSpanConfig :=
  { Parent := some (ParentArg.ours ctx0 (some span0)), StartTime := none, Tags := [] }

/-- Start options naming a remote parent (context without span reference). -/
def optsRemote : StartSpanConfig :=
  { Parent := some (ParentArg.ours ctx0 none), StartTime := none, Tags := [] }

/-- Start options naming a parent of a foreign `SpanContext` type. -/
def optsForeign : StartSpanConfig :=
  { Parent := some ParentArg.foreign, StartTime := none, Tags := [] }

/-- A state whose payload holds three traces. -/
def stateWithTraces : TracerState :=
  { initialState with payload := { items := 3, bytes := 100 } }

/-- A state whose ingestion queue is completely full. -/
def stateFullTraces : TracerState :=
  { initialState with traceBuffer := List.replicate 200 [] }

/-- A state whose error queue is exactly half full. -/
def stateHalfErrors : TracerState :=
  { initialState with errorBuffer := List.replicate 100 (TracerError.encoding "e") }

/-- A state whose payload already sits exactly at the size limit. -/
def statePayloadAtLimit : TracerState :=
  { initialState with payload := { items := 1, bytes := payloadSizeLimit } }

/-! ## Witnesses -/

/-- Witness for the local-parent linkage property at a concrete input. -/
theorem startSpan_localParent_witness :
    (startSpan cfg0 "child" optsLocal 11 5).sp.TraceID = 7 ∧
    (startSpan cfg0 "child" optsLocal 11 5).sp.ParentID = 9 ∧
    (startSpan cfg0 "child" optsLocal 11 5).sp.Service = "psvc" ∧
    (startSpan cfg0 "child" optsLocal 11 5).sp.Metrics samplingPriorityKey = some 2 := by
  have h := startSpan_localParent cfg0 "child" optsLocal 11 5 ctx0 span0 rfl
  exact ⟨h.1, h.2.1, h.2.2.1, h.2.2.2 2 rfl⟩

/-- Witness for the remote-parent linkage property at a concrete input. -/
theorem startSpan_remoteParent_witness :
    (startSpan cfg0 "child" optsRemote 11 5).sp.TraceID = 7 ∧
    (startSpan cfg0 "child" optsRemote 11 5).sp.ParentID = 9 := by
  have h := startSpan_remoteParent cfg0 "child" optsRemote 11 5 ctx0 rfl
  exact ⟨h.1, h.2⟩

/-- Witness for the push-trace overflow behaviour at a full queue. -/
theorem pushTrace_nonblocking_witness :
    stateFullTraces.traceBuffer.length ≥ traceBufferSize ∧
    stateFullTraces.errorBuffer.length < errorBufferSize ∧
    (pushTrace stateFullTraces []).traceBuffer = stateFullTraces.traceBuffer ∧
    (pushTrace stateFullTraces []).errorBuffer = [TracerError.traceBufferFull 0] := by
  have h := (pushTrace_nonblocking stateFullTraces []).2 (by decide)
  exact ⟨by decide, by decide, h.1, h.2.2 (by decide)⟩

/-- Witness for the push-error policy at a half-full error queue. -/
theorem pushError_policy_witness :
    stateHalfErrors.errorBuffer.length ≥ errorBufferSize / 2 ∧
    stateHalfErrors.errorBuffer.length < errorBufferSize ∧
    (pushError stateHalfErrors (TracerError.encoding "x")).flushErrorsReqPending = true ∧
    (pushError stateHalfErrors (TracerError.encoding "x")).errorBuffer
      = stateHalfErrors.errorBuffer ++ [TracerError.encoding "x"] := by
  have h := pushError_policy stateHalfErrors (TracerError.encoding "x")
  exact ⟨by decide, by decide, h.1 (by decide), h.2.2.1 (by decide)⟩

/-- Witness for the push-payload policy at a payload at the size limit. -/
theorem pushPayload_policy_witness :
    (pushPayload statePayloadAtLimit (PushOutcome.err "enc")).payload
      = statePayloadAtLimit.payload ∧
    (pushPayload statePayloadAtLimit (PushOutcome.err "enc")).errorBuffer
      = [TracerError.encoding "enc"] ∧
    (pushPayloadMerge statePayloadAtLimit (PushOutcome.ok 1)).payload.size
      > payloadSizeLimit ∧
    (pushPayload statePayloadAtLimit (PushOutcome.ok 1)).flushTracesReqPending
      = true := by
  have h := pushPayload_policy statePayloadAtLimit "enc" 1
  exact ⟨h.2.1, h.2.2.1 (by decide), by decide,
    (h.2.2.2.2 (PushOutcome.ok 1)).1 (by decide)⟩

/-- Witness for the flush-traces behaviour at a non-empty payload. -/
theorem flushTraces_policy_witness :
    stateWithTraces.payload.itemCount ≠ 0 ∧
    (flushTraces stateWithTraces SendOutcome.ok).2 = true ∧
    ((flushTraces stateWithTraces SendOutcome.ok).1).payload.itemCount = 0 ∧
    ((flushTraces stateWithTraces (SendOutcome.err "down")).1).payload
      = stateWithTraces.payload ∧
    ((flushTraces stateWithTraces (SendOutcome.err "down")).1).errorBuffer
      = [TracerError.transport "down" 3] := by
  have h := flushTraces_policy stateWithTraces "down" (by decide)
  exact ⟨by decide, h.1, h.2.1, h.2.2.2.1, h.2.2.2.2.2 (by decide)⟩

/-- Witness for the rate-metric behaviour of `sample` at a concrete
unfinished sampled span and a rate-1/2 sampler. -/
theorem sample_rateMetric_witness :
    cfg0.sampler.Rate = some (1/2) ∧
    cfg0.sampler.Sample span0 = true ∧
    span0.finished = false ∧
    ((1 : ℚ)/2) < 1 ∧
    (sample cfg0 span0).Metrics sampleRateMetricKey = some (1/2) := by
  have h := sample_rateMetric cfg0 span0 (1/2) rfl
  exact ⟨rfl, rfl, rfl, by norm_num, h.1 rfl rfl (by norm_num)⟩

/-- Witness for the idempotence of `Stop` from the initial running state. -/
theorem Stop_idempotent_witness :
    initialState.stopped = false ∧
    (Stop initialState SendOutcome.ok).2 = true ∧
    Stop (Stop initialState SendOutcome.ok).1 SendOutcome.ok
      = ((Stop initialState SendOutcome.ok).1, false) := by
  have h := Stop_idempotent initialState SendOutcome.ok SendOutcome.ok rfl
  exact ⟨rfl, h.1, h.2.2.2⟩

/-- Witness for the foreign-parent behaviour of `startSpan` at a concrete
input. -/
theorem startSpan_foreignParent_witness :
    optsForeign.Parent = some ParentArg.foreign ∧
    (startSpan cfg0 "root" optsForeign 11 5).sp.ParentID = 0 ∧
    (startSpan cfg0 "root" optsForeign 11 5).sp.TraceID = 11 ∧
    (startSpan cfg0 "root" optsForeign 11 5).sp.SpanID = 11 ∧
    (startSpan cfg0 "root" optsForeign 11 5).sp.Meta extPid = some (Nat.repr 42) ∧
    (startSpan cfg0 "root" optsForeign 11 5).samplerInvoked = true := by
  have h := startSpan_foreignParent cfg0 "root" optsForeign 11 5 rfl
      (fun kv hkv => absurd hkv (List.not_mem_nil kv))
      (fun kv hkv => absurd hkv (List.not_mem_nil kv))
  exact ⟨rfl, h.1, h.2.1, h.2.2.1, h.2.2.2.1, h.2.2.2.2⟩

end DDTrace
